import Mathlib

/-!
Shallow embedding of `llama_index/indices/service_context.py`.

Python objects with mutable attributes (predictors and embedding models, whose
`callback_manager` attribute is reassigned in place) are modelled by natural
number ids into an explicit `Heap`.  Callback managers, language-model handles
and loggers never have their attributes read or written by this file, so a bare
id suffices for them.  Prompt helpers and node parsers are never mutated by
this file, so they are modelled as immutable values recording how they were
constructed.  Python `x or y` on object references is modelled as
`Option.getD`-style resolution (objects are truthy), while `if chunk_size_limit:`
on an optional int is Python truthiness: `None` and `0` are falsy.
-/

namespace LlamaIndexSC

/-- Store of mutable object state.  `next` is the next fresh id.
`predCM`/`predLLM` give an `LLMPredictor` object's `callback_manager`
attribute and the `llm` handle it was constructed from (`none` for
`LLMPredictor()`).  `embCM` gives an embedding object's `callback_manager`
attribute; `embDefault` records whether the object was allocated as a
default `OpenAIEmbedding()`. -/
structure Heap where
  next : Nat
  predCM : Nat → Nat
  predLLM : Nat → Option Nat
  embCM : Nat → Nat
  embDefault : Nat → Bool

/-- A `PromptHelper` value: either one supplied from outside this file, or one
built by `PromptHelper.from_llm_predictor(llm_predictor, chunk_size_limit=...)`. -/
inductive PromptHelper where
  | other (id : Nat)
  | fromLLMPredictor (llm_predictor : Nat) (chunk_size_limit : Option Int)
deriving DecidableEq, Repr

/-- A `TokenTextSplitter` as built by `getDefaultNodeParser`:
`chunk_size = none` means the splitter's own class default. -/
structure TokenTextSplitter where
  chunk_size : Option Int
  callback_manager : Nat
deriving DecidableEq, Repr

/-- A `NodeParser` value: either supplied from outside this file, or a
`SimpleNodeParser(text_splitter=..., callback_manager=...)`. -/
inductive NodeParser where
  | other (id : Nat)
  | simple (text_splitter : TokenTextSplitter) (callback_manager : Nat)
deriving DecidableEq, Repr

/-- The `ServiceContext` dataclass. -/
structure ServiceContext where
  llm_predictor : Nat
  prompt_helper : PromptHelper
  embed_model : Nat
  nodeParser : NodeParser
  llama_logger : Nat
  callback_manager : Nat
  chunk_size_limit : Option Int
deriving DecidableEq, Repr

/-- The `llama_index` module's process-wide state:
`llama_index.global_service_context`. -/
structure GlobalEnv where
  global_service_context : Option ServiceContext
deriving Repr

/-- `CallbackManager([])`: allocate a fresh callback manager. -/
def allocCM (h : Heap) : Nat × Heap :=
  (h.next, { h with next := h.next + 1 })

/-- `LLMPredictor(llm=l)` / `LLMPredictor()`: allocate a fresh predictor object
recording the handle it was built from.  Its initial `callback_manager`
attribute is never observed by this file (every construction path overwrites
it immediately), so it is set to `0`. -/
def allocPredictor (l : Option Nat) (h : Heap) : Nat × Heap :=
  (h.next,
    { h with
      next := h.next + 1
      predCM := fun i => if i = h.next then 0 else h.predCM i
      predLLM := fun i => if i = h.next then l else h.predLLM i })

/-- `OpenAIEmbedding()`: allocate a fresh default embedding object (initial
`callback_manager` likewise never observed). -/
def allocEmbedding (h : Heap) : Nat × Heap :=
  (h.next,
    { h with
      next := h.next + 1
      embCM := fun i => if i = h.next then 0 else h.embCM i
      embDefault := fun i => if i = h.next then true else h.embDefault i })

/-- `LlamaLogger()`: allocate a fresh logger. -/
def allocLogger (h : Heap) : Nat × Heap :=
  (h.next, { h with next := h.next + 1 })

/-- `obj.callback_manager = cm` on a predictor object. -/
def setPredCM (h : Heap) (p cm : Nat) : Heap :=
  { h with predCM := fun i => if i = p then cm else h.predCM i }

/-- `obj.callback_manager = cm` on an embedding object. -/
def setEmbCM (h : Heap) (e cm : Nat) : Heap :=
  { h with embCM := fun i => if i = e then cm else h.embCM i }

/-- Python truthiness of an optional int: `None` and `0` are falsy. -/
def intTruthy : Option Int → Bool
  | none => false
  | some n => n != 0

/-- `getDefaultNodeParser(chunk_size_limit, callback_manager)`:
`callback_manager = callback_manager or CallbackManager([])`, then build a
`TokenTextSplitter` (with the class-default chunk size when the limit `is None`,
else `chunk_size=chunk_size_limit`) and wrap it in a `SimpleNodeParser`. -/
def getDefaultNodeParser (chunk_size_limit : Option Int)
    (callback_manager : Option Nat) (h : Heap) : NodeParser × Heap :=
  let cmh := match callback_manager with
    | some c => (c, h)
    | none => allocCM h
  let tts : TokenTextSplitter := match chunk_size_limit with
    | none => { chunk_size := none, callback_manager := cmh.1 }
    | some n => { chunk_size := some n, callback_manager := cmh.1 }
  (NodeParser.simple tts cmh.1, cmh.2)

/-- `ServiceContext.from_service_context(service_context, llm_predictor, llm,
prompt_helper, embed_model, nodeParser, llama_logger, callback_manager,
chunk_size_limit)`.  A raised `ValueError` is `Except.error`. -/
def from_service_context (service_context : ServiceContext)
    (llm_predictor : Option Nat) (llm : Option Nat)
    (prompt_helper : Option PromptHelper) (embed_model : Option Nat)
    (nodeParser : Option NodeParser) (llama_logger : Option Nat)
    (callback_manager : Option Nat) (chunk_size_limit : Option Int)
    (h : Heap) : Except String (ServiceContext × Heap) :=
  -- callback_manager = callback_manager or service_context.callback_manager
  let cm := match callback_manager with
    | some c => c
    | none => service_context.callback_manager
  -- if llm is not None: (conflict check, then llm_predictor = LLMPredictor(llm=llm))
  if llm.isSome && llm_predictor.isSome then
    Except.error "Cannot specify both llm and llm_predictor"
  else
    let lpR : Option Nat × Heap := match llm with
      | some l => let r := allocPredictor (some l) h; (some r.1, r.2)
      | none => (llm_predictor, h)
    -- llm_predictor = llm_predictor or service_context.llm_predictor
    let lp := match lpR.1 with
      | some p => p
      | none => service_context.llm_predictor
    -- llm_predictor.callback_manager = callback_manager
    let h1 := setPredCM lpR.2 lp cm
    -- embed_model = embed_model or service_context.embed_model
    let em := match embed_model with
      | some e => e
      | none => service_context.embed_model
    -- embed_model.callback_manager = callback_manager
    let h2 := setEmbCM h1 em cm
    -- prompt_helper = prompt_helper or service_context.prompt_helper
    let ph0 := match prompt_helper with
      | some p => p
      | none => service_context.prompt_helper
    -- if chunk_size_limit: prompt_helper = PromptHelper.from_llm_predictor(...)
    let ph := if intTruthy chunk_size_limit then
        PromptHelper.fromLLMPredictor lp chunk_size_limit
      else ph0
    -- nodeParser = nodeParser or service_context.nodeParser
    let np0 := match nodeParser with
      | some p => p
      | none => service_context.nodeParser
    -- if chunk_size_limit: nodeParser = getDefaultNodeParser(...)
    let npR : NodeParser × Heap := if intTruthy chunk_size_limit then
        getDefaultNodeParser chunk_size_limit (some cm) h2
      else (np0, h2)
    -- llama_logger = llama_logger or service_context.llama_logger
    let ll := match llama_logger with
      | some l => l
      | none => service_context.llama_logger
    Except.ok
      ({ llm_predictor := lp, prompt_helper := ph, embed_model := em,
         nodeParser := npR.1, llama_logger := ll, callback_manager := cm,
         chunk_size_limit := chunk_size_limit }, npR.2)

/-- The body of `ServiceContext.from_defaults` after the global-context check
(the hard-coded-defaults path). -/
def from_defaults_core (llm_predictor : Option Nat) (llm : Option Nat)
    (prompt_helper : Option PromptHelper) (embed_model : Option Nat)
    (nodeParser : Option NodeParser) (llama_logger : Option Nat)
    (callback_manager : Option Nat) (chunk_size_limit : Option Int)
    (h : Heap) : Except String (ServiceContext × Heap) :=
  -- callback_manager = callback_manager or CallbackManager([])
  let cmR : Nat × Heap := match callback_manager with
    | some c => (c, h)
    | none => allocCM h
  let cm := cmR.1
  -- if llm is not None: (conflict check, then llm_predictor = LLMPredictor(llm=llm))
  if llm.isSome && llm_predictor.isSome then
    Except.error "Cannot specify both llm and llm_predictor"
  else
    let lpR : Option Nat × Heap := match llm with
      | some l => let r := allocPredictor (some l) cmR.2; (some r.1, r.2)
      | none => (llm_predictor, cmR.2)
    -- llm_predictor = llm_predictor or LLMPredictor()
    let lpR2 : Nat × Heap := match lpR.1 with
      | some p => (p, lpR.2)
      | none => allocPredictor none lpR.2
    let lp := lpR2.1
    -- llm_predictor.callback_manager = callback_manager
    let h1 := setPredCM lpR2.2 lp cm
    -- embed_model = embed_model or OpenAIEmbedding()
    let emR : Nat × Heap := match embed_model with
      | some e => (e, h1)
      | none => allocEmbedding h1
    let em := emR.1
    -- embed_model.callback_manager = callback_manager
    let h2 := setEmbCM emR.2 em cm
    -- prompt_helper = prompt_helper or PromptHelper.from_llm_predictor(...)
    let ph := match prompt_helper with
      | some p => p
      | none => PromptHelper.fromLLMPredictor lp chunk_size_limit
    -- nodeParser = nodeParser or getDefaultNodeParser(...)
    let npR : NodeParser × Heap := match nodeParser with
      | some p => (p, h2)
      | none => getDefaultNodeParser chunk_size_limit (some cm) h2
    -- llama_logger = llama_logger or LlamaLogger()
    let llR : Nat × Heap := match llama_logger with
      | some l => (l, npR.2)
      | none => allocLogger npR.2
    Except.ok
      ({ llm_predictor := lp, prompt_helper := ph, embed_model := em,
         nodeParser := npR.1, llama_logger := llR.1, callback_manager := cm,
         chunk_size_limit := chunk_size_limit }, llR.2)

/-- `ServiceContext.from_defaults`.  When `llama_index.global_service_context`
is not `None`, it delegates to `from_service_context` — note the source passes
every override through EXCEPT `llm`, which is silently dropped. -/
def from_defaults (env : GlobalEnv)
    (llm_predictor : Option Nat) (llm : Option Nat)
    (prompt_helper : Option PromptHelper) (embed_model : Option Nat)
    (nodeParser : Option NodeParser) (llama_logger : Option Nat)
    (callback_manager : Option Nat) (chunk_size_limit : Option Int)
    (h : Heap) : Except String (ServiceContext × Heap) :=
  match env.global_service_context with
  | some g =>
      from_service_context g llm_predictor none prompt_helper embed_model
        nodeParser llama_logger callback_manager chunk_size_limit h
  | none =>
      from_defaults_core llm_predictor llm prompt_helper embed_model
        nodeParser llama_logger callback_manager chunk_size_limit h

/-- `set_global_service_context(service_context)`:
`llama_index.global_service_context = service_context`. -/
def set_global_service_context (service_context : Option ServiceContext)
    (env : GlobalEnv) : GlobalEnv :=
  { env with global_service_context := service_context }

/-- Project the returned context out of a construction result. -/
def resultCtx (r : Except String (ServiceContext × Heap)) :
    Option ServiceContext :=
  r.toOption.map Prod.fst

/-- Project the post-state heap out of a construction result. -/
def resultHeap (r : Except String (ServiceContext × Heap)) : Option Heap :=
  r.toOption.map Prod.snd

/-- An empty initial heap for concrete evaluations. -/
def h0 : Heap :=
  { next := 20, predCM := fun _ => 0, predLLM := fun _ => none,
    embCM := fun _ => 0, embDefault := fun _ => false }

/-- A concrete base context for concrete evaluations: predictor `10`,
embedding `11`, logger `12`, callback manager `13`, helper/parser supplied
from outside, no chunk-size limit. -/
def base0 : ServiceContext :=
  { llm_predictor := 10, prompt_helper := PromptHelper.other 99,
    embed_model := 11, nodeParser := NodeParser.other 98,
    llama_logger := 12, callback_manager := 13, chunk_size_limit := none }

/-- Like `base0` but carrying a chunk-size limit of `512`. -/
def base1 : ServiceContext :=
  { base0 with chunk_size_limit := some 512 }

/-- `base0` with a chunk-size limit of `0` in the result slot. -/
def cx0 : ServiceContext :=
  { base0 with chunk_size_limit := some 0 }

/-- The context produced by deriving from `base0` with a chunk-size limit of
`256`: helper and parser rebuilt from predictor `10` and dispatcher `13`. -/
def cW256 : ServiceContext :=
  { llm_predictor := 10,
    prompt_helper := PromptHelper.fromLLMPredictor 10 (some 256),
    embed_model := 11,
    nodeParser := NodeParser.simple
      { chunk_size := some 256, callback_manager := 13 } 13,
    llama_logger := 12, callback_manager := 13,
    chunk_size_limit := some 256 }

/-- The context produced by the hard-coded-defaults path from `h0` with a
chunk-size limit of `0`. -/
def cd0 : ServiceContext :=
  { llm_predictor := 21,
    prompt_helper := PromptHelper.fromLLMPredictor 21 (some 0),
    embed_model := 22,
    nodeParser := NodeParser.simple
      { chunk_size := some 0, callback_manager := 20 } 20,
    llama_logger := 23, callback_manager := 20,
    chunk_size_limit := some 0 }

/-- The heap left by deriving from `base0` on `h0` with no overrides. -/
def hpW : Heap := setEmbCM (setPredCM h0 10 13) 11 13

/-- Invariant checked on a construction result: the returned context's
callback manager is installed on the returned predictor's and embedding
model's `callback_manager` attribute in the post-state heap. -/
def dispatcherInstalled : Except String (ServiceContext × Heap) → Prop
  | Except.error _ => True
  | Except.ok (c, hp) =>
      hp.predCM c.llm_predictor = c.callback_manager ∧
      hp.embCM c.embed_model = c.callback_manager

/-- The success branch of `from_service_context` (the code after the
conflict check), as a total function: the pair of the returned context and
the post-state heap. -/
def fscRun (base : ServiceContext) (lpA llmA : Option Nat)
    (phA : Option PromptHelper) (emA : Option Nat) (npA : Option NodeParser)
    (llA cbA : Option Nat) (cs : Option Int) (h : Heap) :
    ServiceContext × Heap :=
  let cm := match cbA with
    | some c => c
    | none => base.callback_manager
  let lpR : Option Nat × Heap := match llmA with
    | some l => let r := allocPredictor (some l) h; (some r.1, r.2)
    | none => (lpA, h)
  let lp := match lpR.1 with
    | some p => p
    | none => base.llm_predictor
  let h1 := setPredCM lpR.2 lp cm
  let em := match emA with
    | some e => e
    | none => base.embed_model
  let h2 := setEmbCM h1 em cm
  let ph0 := match phA with
    | some p => p
    | none => base.prompt_helper
  let ph := if intTruthy cs then PromptHelper.fromLLMPredictor lp cs else ph0
  let np0 := match npA with
    | some p => p
    | none => base.nodeParser
  let npR : NodeParser × Heap := if intTruthy cs then
      getDefaultNodeParser cs (some cm) h2
    else (np0, h2)
  let ll := match llA with
    | some l => l
    | none => base.llama_logger
  ({ llm_predictor := lp, prompt_helper := ph, embed_model := em,
     nodeParser := npR.1, llama_logger := ll, callback_manager := cm,
     chunk_size_limit := cs }, npR.2)

theorem fsc_eq (base : ServiceContext) (lpA llmA : Option Nat)
    (phA : Option PromptHelper) (emA : Option Nat) (npA : Option NodeParser)
    (llA cbA : Option Nat) (cs : Option Int) (h : Heap) :
    from_service_context base lpA llmA phA emA npA llA cbA cs h =
      if llmA.isSome && lpA.isSome then
        Except.error "Cannot specify both llm and llm_predictor"
      else Except.ok (fscRun base lpA llmA phA emA npA llA cbA cs h) := by
  unfold from_service_context fscRun
  split <;> rfl

theorem fsc_ok_ctx (base : ServiceContext) (lpA llmA : Option Nat)
    (phA : Option PromptHelper) (emA : Option Nat) (npA : Option NodeParser)
    (llA cbA : Option Nat) (cs : Option Int) (h : Heap)
    (ctx : ServiceContext)
    (hres : resultCtx
      (from_service_context base lpA llmA phA emA npA llA cbA cs h) =
        some ctx) :
    ctx = (fscRun base lpA llmA phA emA npA llA cbA cs h).1 := by
  rw [fsc_eq] at hres
  by_cases hc : (llmA.isSome && lpA.isSome) = true
  · rw [if_pos hc] at hres
    simp [resultCtx, Except.toOption] at hres
  · rw [if_neg hc] at hres
    simpa [resultCtx, Except.toOption, eq_comm] using hres

theorem fsc_ok_heap (base : ServiceContext) (lpA llmA : Option Nat)
    (phA : Option PromptHelper) (emA : Option Nat) (npA : Option NodeParser)
    (llA cbA : Option Nat) (cs : Option Int) (h : Heap) (hp : Heap)
    (hres : resultHeap
      (from_service_context base lpA llmA phA emA npA llA cbA cs h) =
        some hp) :
    hp = (fscRun base lpA llmA phA emA npA llA cbA cs h).2 := by
  rw [fsc_eq] at hres
  by_cases hc : (llmA.isSome && lpA.isSome) = true
  · rw [if_pos hc] at hres
    simp [resultHeap, Except.toOption] at hres
  · rw [if_neg hc] at hres
    simpa [resultHeap, Except.toOption, eq_comm] using hres

theorem fsc_dispatcherInstalled (base : ServiceContext)
    (lpA llmA : Option Nat) (phA : Option PromptHelper) (emA : Option Nat)
    (npA : Option NodeParser) (llA cbA : Option Nat) (cs : Option Int)
    (h : Heap) :
    dispatcherInstalled
      (from_service_context base lpA llmA phA emA npA llA cbA cs h) := by
  cases hI : intTruthy cs <;> cases cbA <;> cases llmA <;> cases lpA <;>
    cases emA <;>
    simp [from_service_context, dispatcherInstalled, hI, setPredCM, setEmbCM,
      getDefaultNodeParser, allocPredictor]

theorem fdc_dispatcherInstalled (lpA llmA : Option Nat)
    (phA : Option PromptHelper) (emA : Option Nat) (npA : Option NodeParser)
    (llA cbA : Option Nat) (cs : Option Int) (h : Heap) :
    dispatcherInstalled
      (from_defaults_core lpA llmA phA emA npA llA cbA cs h) := by
  cases cbA <;> cases llmA <;> cases lpA <;> cases emA <;> cases npA <;>
    cases llA <;>
    simp [from_defaults_core, dispatcherInstalled, setPredCM, setEmbCM,
      getDefaultNodeParser, allocCM, allocPredictor, allocEmbedding,
      allocLogger]

/-- C5: after every successful construction, on either path, the resolved
dispatcher stored in the returned context's callback-manager field is also the
value of the `callback_manager` attribute of the returned predictor and of the
returned embedding model. -/
theorem claim_C5 :
    (∀ (base : ServiceContext) (lpA llmA : Option Nat)
        (phA : Option PromptHelper) (emA : Option Nat)
        (npA : Option NodeParser) (llA cbA : Option Nat) (cs : Option Int)
        (h : Heap),
      dispatcherInstalled
        (from_service_context base lpA llmA phA emA npA llA cbA cs h)) ∧
    (∀ (env : GlobalEnv) (lpA llmA : Option Nat) (phA : Option PromptHelper)
        (emA : Option Nat) (npA : Option NodeParser) (llA cbA : Option Nat)
        (cs : Option Int) (h : Heap),
      dispatcherInstalled
        (from_defaults env lpA llmA phA emA npA llA cbA cs h)) := by
  refine ⟨fun base lpA llmA phA emA npA llA cbA cs h =>
      fsc_dispatcherInstalled base lpA llmA phA emA npA llA cbA cs h,
    fun env lpA llmA phA emA npA llA cbA cs h => ?_⟩
  unfold from_defaults
  cases env.global_service_context with
  | some g => exact fsc_dispatcherInstalled g lpA none phA emA npA llA cbA cs h
  | none => exact fdc_dispatcherInstalled lpA llmA phA emA npA llA cbA cs h

/-- C6: with no global default installed and no arguments, `from_defaults`
returns a context whose predictor, embedding model, prompt helper, node parser
and logger are freshly allocated default instances and whose chunk-size-limit
field is `none`; the fresh predictor was built with no handle and the fresh
embedding model is a default one. -/
theorem claim_C6 (h : Heap) :
    resultCtx (from_defaults ⟨none⟩ none none none none none none none none h) =
      some { llm_predictor := h.next + 1,
             prompt_helper := PromptHelper.fromLLMPredictor (h.next + 1) none,
             embed_model := h.next + 2,
             nodeParser := NodeParser.simple
               { chunk_size := none, callback_manager := h.next } h.next,
             llama_logger := h.next + 3,
             callback_manager := h.next,
             chunk_size_limit := none } ∧
    (resultHeap (from_defaults ⟨none⟩ none none none none none none none none h)).map
        (fun hp => hp.predLLM (h.next + 1)) = some none ∧
    (resultHeap (from_defaults ⟨none⟩ none none none none none none none none h)).map
        (fun hp => hp.embDefault (h.next + 2)) = some true := by
  refine ⟨rfl, ?_, ?_⟩ <;>
    simp [from_defaults, from_defaults_core, resultHeap, allocCM,
      allocPredictor, allocEmbedding, allocLogger, setPredCM, setEmbCM,
      getDefaultNodeParser, Except.toOption]

/-- C7: after the global default is cleared with
`set_global_service_context none`, every `from_defaults` call runs the
hard-coded-defaults path, whatever global was previously installed. -/
theorem claim_C7 (env : GlobalEnv) (lpA llmA : Option Nat)
    (phA : Option PromptHelper) (emA : Option Nat) (npA : Option NodeParser)
    (llA cbA : Option Nat) (cs : Option Int) (h : Heap) :
    from_defaults (set_global_service_context none env)
        lpA llmA phA emA npA llA cbA cs h =
      from_defaults_core lpA llmA phA emA npA llA cbA cs h := rfl

/-- C1: the claimed both-supplied-iff-error rule fails on the delegating path:
calling either constructor directly with both `llm` and `llm_predictor` raises,
but `from_defaults` with a global context installed and both supplied returns
successfully (the context built from the global with `llm` dropped), because
the delegation to `from_service_context` does not pass `llm` through. -/
theorem claim_C1_eval :
    from_service_context base0 (some 5) (some 6) none none none none none
        none h0 =
      Except.error "Cannot specify both llm and llm_predictor" ∧
    from_defaults_core (some 5) (some 6) none none none none none none h0 =
      Except.error "Cannot specify both llm and llm_predictor" ∧
    resultCtx (from_defaults ⟨some base0⟩ (some 5) (some 6) none none none
        none none none h0) =
      some { llm_predictor := 5, prompt_helper := PromptHelper.other 99,
             embed_model := 11, nodeParser := NodeParser.other 98,
             llama_logger := 12, callback_manager := 13,
             chunk_size_limit := none } :=
  ⟨rfl, rfl, rfl⟩

/-- C4: with a global context installed, `from_defaults` is NOT equivalent to
`from_service_context` on the global with the same overrides when `llm` is
supplied: the delegation drops `llm`, so `from_defaults` keeps the global's
predictor while the direct call builds a fresh predictor from the handle. -/
theorem claim_C4_eval :
    from_defaults ⟨some base0⟩ none (some 7) none none none none none none
        h0 =
      from_service_context base0 none none none none none none none none
        h0 ∧
    resultCtx (from_defaults ⟨some base0⟩ none (some 7) none none none none
        none none h0) =
      some { llm_predictor := 10, prompt_helper := PromptHelper.other 99,
             embed_model := 11, nodeParser := NodeParser.other 98,
             llama_logger := 12, callback_manager := 13,
             chunk_size_limit := none } ∧
    resultCtx (from_service_context base0 none (some 7) none none none none
        none none h0) =
      some { llm_predictor := 20, prompt_helper := PromptHelper.other 99,
             embed_model := 11, nodeParser := NodeParser.other 98,
             llama_logger := 12, callback_manager := 13,
             chunk_size_limit := none } ∧
    (10 : Nat) ≠ 20 :=
  ⟨rfl, rfl, rfl, by decide⟩

/-- C2: the claim fails at an explicitly supplied chunk-size limit of `0`:
deriving from `base0` with limit `0` keeps the base's prompt helper and node
parser instead of rebuilding them. -/
theorem claim_C2_counterexample :
    resultCtx (from_service_context base0 none none none none none none none
        (some 0) h0) = some cx0 ∧
    cx0.prompt_helper ≠
      PromptHelper.fromLLMPredictor cx0.llm_predictor (some 0) ∧
    cx0.nodeParser ≠
      NodeParser.simple
        { chunk_size := some 0, callback_manager := cx0.callback_manager }
        cx0.callback_manager :=
  ⟨rfl, by decide, by decide⟩

/-- C2 (amended): for every `from_service_context` call with an explicit
NON-ZERO chunk-size limit, the returned context's prompt helper is freshly
built from the resolved predictor and that limit, and its node parser is
freshly built from that limit and the resolved dispatcher, regardless of the
base context's helper and parser. -/
theorem claim_C2_amended (base : ServiceContext) (lpA llmA : Option Nat)
    (phA : Option PromptHelper) (emA : Option Nat) (npA : Option NodeParser)
    (llA cbA : Option Nat) (n : Int) (h : Heap) (ctx : ServiceContext)
    (hn : n ≠ 0)
    (hres : resultCtx
      (from_service_context base lpA llmA phA emA npA llA cbA (some n) h) =
        some ctx) :
    ctx.prompt_helper =
      PromptHelper.fromLLMPredictor ctx.llm_predictor (some n) ∧
    ctx.nodeParser =
      NodeParser.simple
        { chunk_size := some n, callback_manager := ctx.callback_manager }
        ctx.callback_manager := by
  have hI : intTruthy (some n) = true := by simp [intTruthy, hn]
  rw [fsc_ok_ctx base lpA llmA phA emA npA llA cbA (some n) h ctx hres]
  simp [fscRun, hI, getDefaultNodeParser]

/-- Witness for C2 (amended) at `base0`, limit `256`, heap `h0`. -/
theorem claim_C2_amended_witness :
    (256 : Int) ≠ 0 ∧
    resultCtx (from_service_context base0 none none none none none none none
        (some 256) h0) = some cW256 ∧
    (cW256.prompt_helper =
        PromptHelper.fromLLMPredictor cW256.llm_predictor (some 256) ∧
      cW256.nodeParser =
        NodeParser.simple
          { chunk_size := some 256, callback_manager := cW256.callback_manager }
          cW256.callback_manager) :=
  ⟨by decide, rfl,
    claim_C2_amended base0 none none none none none none none 256 h0 cW256
      (by decide) rfl⟩

/-- C3: the claim fails on the chunk-size-limit field: deriving from `base1`
(whose limit is `512`) with no overrides yields a context whose limit is
`none`, not the base's `some 512`. -/
theorem claim_C3_counterexample :
    resultCtx (from_service_context base1 none none none none none none none
        none h0) = some base0 ∧
    base0.chunk_size_limit ≠ base1.chunk_size_limit :=
  ⟨rfl, by decide⟩

/-- C3 (amended): in `from_service_context`, every collaborator field with no
explicit override equals the base's corresponding field — the predictor when
neither a predictor nor a handle is given, and the prompt helper and node
parser additionally only when no truthy chunk-size limit forces a rebuild —
while the returned chunk-size-limit field is always the supplied argument
(absent when not supplied), never inherited from the base. -/
theorem claim_C3_amended (base : ServiceContext) (lpA llmA : Option Nat)
    (phA : Option PromptHelper) (emA : Option Nat) (npA : Option NodeParser)
    (llA cbA : Option Nat) (cs : Option Int) (h : Heap)
    (ctx : ServiceContext)
    (hres : resultCtx
      (from_service_context base lpA llmA phA emA npA llA cbA cs h) =
        some ctx) :
    (lpA = none → llmA = none → ctx.llm_predictor = base.llm_predictor) ∧
    (emA = none → ctx.embed_model = base.embed_model) ∧
    (cbA = none → ctx.callback_manager = base.callback_manager) ∧
    (llA = none → ctx.llama_logger = base.llama_logger) ∧
    (phA = none → intTruthy cs = false →
      ctx.prompt_helper = base.prompt_helper) ∧
    (npA = none → intTruthy cs = false →
      ctx.nodeParser = base.nodeParser) ∧
    ctx.chunk_size_limit = cs := by
  rw [fsc_ok_ctx base lpA llmA phA emA npA llA cbA cs h ctx hres]
  refine ⟨?_, ?_, ?_, ?_, ?_, ?_, ?_⟩
  · rintro rfl rfl; simp [fscRun]
  · rintro rfl; simp [fscRun]
  · rintro rfl; simp [fscRun]
  · rintro rfl; simp [fscRun]
  · rintro rfl hI; simp [fscRun, hI]
  · rintro rfl hI; simp [fscRun, hI]
  · simp [fscRun]

/-- Witness for C3 (amended): deriving from `base1` with no overrides gives
back `base0`, inheriting the predictor but not the chunk-size limit. -/
theorem claim_C3_amended_witness :
    base0.llm_predictor = base1.llm_predictor ∧
    base0.chunk_size_limit = none :=
  ⟨(claim_C3_amended base1 none none none none none none none none h0 base0
      rfl).1 rfl rfl,
    (claim_C3_amended base1 none none none none none none none none h0 base0
      rfl).2.2.2.2.2.2⟩

/-- C8: in `from_service_context` with a truthy (non-zero) chunk-size limit,
the forced rebuild discards even an explicitly supplied `prompt_helper` or
`nodeParser` argument — the returned fields are the freshly built instances
whatever `phArg` and `npArg` were. -/
theorem claim_C8 (base : ServiceContext) (lpA llmA : Option Nat)
    (phArg : PromptHelper) (emA : Option Nat) (npArg : NodeParser)
    (llA cbA : Option Nat) (n : Int) (h : Heap) (ctx : ServiceContext)
    (hn : n ≠ 0)
    (hres : resultCtx
      (from_service_context base lpA llmA (some phArg) emA (some npArg) llA
        cbA (some n) h) = some ctx) :
    ctx.prompt_helper =
      PromptHelper.fromLLMPredictor ctx.llm_predictor (some n) ∧
    ctx.nodeParser =
      NodeParser.simple
        { chunk_size := some n, callback_manager := ctx.callback_manager }
        ctx.callback_manager := by
  have hI : intTruthy (some n) = true := by simp [intTruthy, hn]
  rw [fsc_ok_ctx base lpA llmA (some phArg) emA (some npArg) llA cbA (some n)
    h ctx hres]
  simp [fscRun, hI, getDefaultNodeParser]

/-- Witness for C8: explicit helper `.other 55` and parser `.other 54` are
discarded when limit `256` is supplied. -/
theorem claim_C8_witness :
    (256 : Int) ≠ 0 ∧
    resultCtx (from_service_context base0 none none
        (some (PromptHelper.other 55)) none (some (NodeParser.other 54)) none
        none (some 256) h0) = some cW256 ∧
    (cW256.prompt_helper =
        PromptHelper.fromLLMPredictor cW256.llm_predictor (some 256) ∧
      cW256.nodeParser =
        NodeParser.simple
          { chunk_size := some 256, callback_manager := cW256.callback_manager }
          cW256.callback_manager) :=
  ⟨by decide, rfl,
    claim_C8 base0 none none (PromptHelper.other 55) none
      (NodeParser.other 54) none none 256 h0 cW256 (by decide) rfl⟩

/-- C9: a chunk-size limit of exactly `0` does not trigger the rebuild in
`from_service_context` (truthiness test — the helper and parser resolve as if
the limit were absent), while in `from_defaults` without a global context a
limit of `0` is treated as present: it is passed to the default prompt helper
and gives the default parser a splitter with `chunk_size = 0` (None-ness
test). -/
theorem claim_C9 :
    (∀ (base : ServiceContext) (lpA llmA : Option Nat)
        (phA : Option PromptHelper) (emA : Option Nat)
        (npA : Option NodeParser) (llA cbA : Option Nat) (h : Heap)
        (ctx : ServiceContext),
      resultCtx
          (from_service_context base lpA llmA phA emA npA llA cbA (some 0)
            h) = some ctx →
        ctx.prompt_helper = phA.getD base.prompt_helper ∧
        ctx.nodeParser = npA.getD base.nodeParser) ∧
    (∀ (lpA llmA emA llA cbA : Option Nat) (h : Heap)
        (ctx : ServiceContext),
      resultCtx
          (from_defaults ⟨none⟩ lpA llmA none emA none llA cbA (some 0) h) =
            some ctx →
        ctx.prompt_helper =
          PromptHelper.fromLLMPredictor ctx.llm_predictor (some 0) ∧
        ctx.nodeParser =
          NodeParser.simple
            { chunk_size := some 0, callback_manager := ctx.callback_manager }
            ctx.callback_manager) := by
  constructor
  · intro base lpA llmA phA emA npA llA cbA h ctx hres
    rw [fsc_ok_ctx base lpA llmA phA emA npA llA cbA (some 0) h ctx hres]
    cases phA <;> cases npA <;> simp [fscRun, intTruthy]
  · intro lpA llmA emA llA cbA h ctx hres
    cases cbA <;> cases llmA <;> cases lpA <;> cases emA <;> cases llA <;>
      simp [from_defaults, from_defaults_core, resultCtx, Except.toOption,
        getDefaultNodeParser, allocCM, allocPredictor, allocEmbedding,
        allocLogger] at hres <;>
      subst hres <;> simp

/-- Witness for C9: limit `0` on the derive path keeps `base0`'s helper and
parser; limit `0` on the defaults path builds `cd0`'s helper and parser with
`0` passed through. -/
theorem claim_C9_witness :
    (cx0.prompt_helper = base0.prompt_helper ∧
      cx0.nodeParser = base0.nodeParser) ∧
    (cd0.prompt_helper =
        PromptHelper.fromLLMPredictor cd0.llm_predictor (some 0) ∧
      cd0.nodeParser =
        NodeParser.simple
          { chunk_size := some 0, callback_manager := cd0.callback_manager }
          cd0.callback_manager) :=
  ⟨claim_C9.1 base0 none none none none none none none h0 cx0 rfl,
    claim_C9.2 none none none none none h0 cd0 rfl⟩

/-- C10: `from_service_context` with no predictor, handle or embedding
override mutates the base's predictor and embedding objects in place,
reassigning their callback-manager attribute to the resolved dispatcher;
every other heap cell — other predictors' and embeddings' attributes, every
object's construction data, and the allocation counter — is unchanged. -/
theorem claim_C10 (base : ServiceContext) (phA : Option PromptHelper)
    (npA : Option NodeParser) (llA cbA : Option Nat) (cs : Option Int)
    (h : Heap) (hp : Heap)
    (hres : resultHeap
      (from_service_context base none none phA none npA llA cbA cs h) =
        some hp) :
    hp.predCM base.llm_predictor = cbA.getD base.callback_manager ∧
    hp.embCM base.embed_model = cbA.getD base.callback_manager ∧
    (∀ i, i ≠ base.llm_predictor → hp.predCM i = h.predCM i) ∧
    (∀ i, i ≠ base.embed_model → hp.embCM i = h.embCM i) ∧
    hp.predLLM = h.predLLM ∧
    hp.embDefault = h.embDefault ∧
    hp.next = h.next := by
  rw [fsc_ok_heap base none none phA none npA llA cbA cs h hp hres]
  cases hI : intTruthy cs <;> cases cbA <;>
    simp [fscRun, hI, getDefaultNodeParser, setPredCM, setEmbCM] <;>
    refine ⟨fun i hi => ?_, fun i hi => ?_⟩ <;> simp [hi]

/-- Witness for C10 at `base0`, `h0`, no overrides: the final heap is exactly
`h0` with predictor `10`'s and embedding `11`'s attribute set to `13`. -/
theorem claim_C10_witness :
    hpW.predCM 10 = 13 ∧
    hpW.embCM 11 = 13 ∧
    hpW.predCM 5 = h0.predCM 5 ∧
    hpW.embCM 5 = h0.embCM 5 ∧
    hpW.next = h0.next :=
  ⟨(claim_C10 base0 none none none none none h0 hpW rfl).1,
    (claim_C10 base0 none none none none none h0 hpW rfl).2.1,
    (claim_C10 base0 none none none none none h0 hpW rfl).2.2.1 5 (by decide),
    (claim_C10 base0 none none none none none h0 hpW rfl).2.2.2.1 5
      (by decide),
    (claim_C10 base0 none none none none none h0 hpW rfl).2.2.2.2.2.2⟩

end LlamaIndexSC
